import Mathlib

/-!
Verification of the self-driving car game core (car.py, road.py, main.py).

The Python code is shallowly embedded: continuous quantities (positions,
velocities, time deltas) become rationals, Python ints become integers,
command strings stay strings, and every random draw becomes an explicit
input parameter of the operation that performs it.  Field and method names
follow the Python source.
-/

namespace CarGame

/-- Python `int()` applied to a rational: truncation toward zero. -/
def pyInt (q : ℚ) : ℤ := if 0 ≤ q then ⌊q⌋ else ⌈q⌉

/-- Python `a // 2` on ints is floor division; `Int.fdiv` is Lean floor division.
The expression `lane * lane_width + lane_width // 2` appears verbatim in
`Car.__init__`, `Car.update`, `Car.reset_position` and `Road.spawn_obstacle`. -/
def lane_center_x (lane lane_width : ℤ) : ℤ := lane * lane_width + Int.fdiv lane_width 2

/-- State of `Car` (car.py lines 5-30), one field per Python attribute. -/
structure Car where
  y : ℚ
  width : ℤ
  height : ℤ
  velocity : ℚ
  max_velocity : ℚ
  acceleration : ℚ
  friction : ℚ
  default_speed : ℚ
  angle : ℚ
  lane : ℤ
  target_lane : ℤ
  lane_width : ℤ
  lane_change_speed : ℚ
  x : ℚ
  braking : Bool
  current_command : String
  last_command : String
deriving DecidableEq

/-- `Car.__init__(x, y, width, height)` (car.py lines 5-30).  The Python
constructor never reads its `x` argument: `self.x` is computed from the
initial lane, so the `x` parameter is ignored here as well. -/
def Car.init (x y : ℚ) (width height : ℤ) : Car :=
  { y := y
    width := width
    height := height
    velocity := 0
    max_velocity := 6
    acceleration := 1/5
    friction := 3/20
    default_speed := 3
    angle := 0
    lane := 1
    target_lane := 1
    lane_width := 200
    lane_change_speed := 10
    x := ((lane_center_x 1 200 : ℤ) : ℚ)
    braking := false
    current_command := "CENTER"
    last_command := "NONE" }

/-- `Car.update_controls(model_action)` (car.py lines 32-50). -/
def Car.update_controls (c : Car) (model_action : String) : Car :=
  let c1 : Car := { c with current_command := model_action }
  let c2 : Car :=
    if model_action = "BRAKE" then
      { c1 with braking := true }
    else
      let c1b : Car := { c1 with braking := false }
      if model_action ≠ c1b.last_command then
        if model_action = "SWIPE_LEFT" ∧ c1b.target_lane > 0 then
          { c1b with target_lane := max 0 (c1b.target_lane - 1) }
        else if model_action = "SWIPE_RIGHT" ∧ c1b.target_lane < 2 then
          { c1b with target_lane := min 2 (c1b.target_lane + 1) }
        else c1b
      else c1b
  { c2 with last_command := model_action }

/-- `Car.update(dt)` (car.py lines 52-79).  The Python body never reads `dt`;
the parameter is kept to mirror the signature. -/
def Car.update (c : Car) (dt : ℚ) : Car :=
  let v : ℚ :=
    if c.braking then
      max 0 (c.velocity - c.acceleration * 4)
    else
      if c.velocity < c.default_speed then
        min c.default_speed (c.velocity + c.acceleration)
      else
        c.default_speed
  let c1 : Car := { c with velocity := v }
  let target_x : ℚ := ((lane_center_x c1.target_lane c1.lane_width : ℤ) : ℚ)
  if |c1.x - target_x| > 3 then
    if c1.x < target_x then
      { c1 with x := c1.x + c1.lane_change_speed }
    else
      { c1 with x := c1.x - c1.lane_change_speed }
  else
    { c1 with x := target_x, lane := c1.target_lane }

/-- `Car.reset_position(x, y)` (car.py lines 182-190).  The Python method never
reads its `x` argument (`self.x` is recomputed from the lane); it leaves
`braking` and `current_command` untouched. -/
def Car.reset_position (c : Car) (x y : ℚ) : Car :=
  { c with
    y := y
    velocity := 0
    lane := 1
    target_lane := 1
    x := ((lane_center_x 1 c.lane_width : ℤ) : ℚ)
    last_command := "NONE" }

/-- An axis-aligned `pygame.Rect`: integer position and size.  `pygame.Rect`
truncates non-integer arguments toward zero. -/
structure Rect where
  x : ℤ
  y : ℤ
  w : ℤ
  h : ℤ
deriving DecidableEq

/-- `Car.get_rect()` (car.py lines 81-84):
`pygame.Rect(x - width//2, y - height//2, width, height)`. -/
def Car.get_rect (c : Car) : Rect :=
  { x := pyInt (c.x - ((Int.fdiv c.width 2 : ℤ) : ℚ))
    y := pyInt (c.y - ((Int.fdiv c.height 2 : ℤ) : ℚ))
    w := c.width
    h := c.height }

/-- `pygame.Rect.colliderect`: true when both rectangles have nonzero extent
and the four strict overlap inequalities hold (pygame rect.c,
`_pg_do_rects_intersect`). -/
def Rect.colliderect (a b : Rect) : Bool :=
  !(decide (a.w = 0) || decide (a.h = 0) || decide (b.w = 0) || decide (b.h = 0)) &&
  (decide (a.x < b.x + b.w) && decide (a.y < b.y + b.h) &&
   decide (a.x + a.w > b.x) && decide (a.y + a.h > b.y))

/-- State of `Obstacle` (road.py lines 5-22), one field per Python attribute.
The per-instance `point_values` dict is identical on every instance and is
modelled by the function `Obstacle.point_values` below. -/
structure Obstacle where
  x : ℚ
  y : ℚ
  width : ℤ
  height : ℤ
  speed : ℚ
  active : Bool
  obstacle_type : String
  animation_offset : ℚ
  points_awarded : Bool
deriving DecidableEq

/-- The `point_values` dict built in `Obstacle.__init__` (road.py lines 18-22);
`none` models a `KeyError` on any other key. -/
def Obstacle.point_values (t : String) : Option ℤ :=
  if t = "car" then some 10
  else if t = "truck" then some 20
  else if t = "barrier" then some 5
  else none

/-- `Obstacle.__init__(x, y, width, height, speed, obstacle_type)` (road.py
lines 6-22).  `animRand` is the `random.random()` draw used for the animation
offset. -/
def Obstacle.init (x y : ℚ) (width height : ℤ) (speed : ℚ) (obstacle_type : String)
    (animRand : ℚ) : Obstacle :=
  { x := x
    y := y
    width := width
    height := height
    speed := speed
    active := true
    obstacle_type := obstacle_type
    animation_offset := animRand * (628/100)
    points_awarded := false }

/-- `Obstacle.update(dt, camera_speed)` (road.py lines 24-31). -/
def Obstacle.update (o : Obstacle) (dt camera_speed : ℚ) : Obstacle :=
  let o1 : Obstacle := { o with y := o.y + camera_speed * dt * 150 }
  if o1.y > 800 then { o1 with active := false } else o1

/-- `Obstacle.get_rect()` (road.py lines 33-36). -/
def Obstacle.get_rect (o : Obstacle) : Rect :=
  { x := pyInt (o.x - ((Int.fdiv o.width 2 : ℤ) : ℚ))
    y := pyInt (o.y - ((Int.fdiv o.height 2 : ℤ) : ℚ))
    w := o.width
    h := o.height }

/-- One road particle (road.py lines 200-203, a Python dict). -/
structure Particle where
  x : ℤ
  y : ℚ
  speed : ℚ
  life : ℚ
  max_life : ℚ
deriving DecidableEq

/-- The random draws consumed by one `Road.update_particles` call
(road.py lines 197-202). -/
structure ParticleRand where
  p : ℚ
  x : ℤ
  speed : ℚ
  life : ℚ
deriving DecidableEq

/-- The random draws consumed by one `Road.spawn_obstacle` call
(road.py lines 225 and 234) plus the draw inside `Obstacle.__init__`. -/
structure SpawnRand where
  lane : ℤ
  typeR : ℚ
  animR : ℚ
deriving DecidableEq

/-- All random draws consumed by one `Road.update` call. -/
structure RoadRand where
  spawn : SpawnRand
  particles : ParticleRand
deriving DecidableEq

/-- State of `Road` (road.py lines 140-165), one field per Python attribute.
`explosion_effects` is never populated by any code path, so its element type
is irrelevant; `Unit` is used. -/
structure Road where
  width : ℚ
  height : ℚ
  lane_width : ℤ
  num_lanes : ℤ
  road_y_offset : ℚ
  line_spacing : ℚ
  obstacles : List Obstacle
  obstacle_spawn_timer : ℚ
  obstacle_spawn_interval : ℚ
  obstacle_speed : ℚ
  score : ℤ
  distance_traveled : ℚ
  multiplier : ℚ
  bonus_spawn_chance : ℚ
  road_particles : List Particle
  explosion_effects : List Unit
deriving DecidableEq

/-- `Road.__init__(width, height)` (road.py lines 141-165). -/
def Road.init (width height : ℚ) : Road :=
  { width := width
    height := height
    lane_width := 200
    num_lanes := 3
    road_y_offset := 0
    line_spacing := 40
    obstacles := []
    obstacle_spawn_timer := 0
    obstacle_spawn_interval := 1500
    obstacle_speed := 0
    score := 0
    distance_traveled := 0
    multiplier := 1
    bonus_spawn_chance := 1/10
    road_particles := []
    explosion_effects := [] }

/-- The obstacle constructed by `Road.spawn_obstacle` (road.py lines 222-242). -/
def Road.spawnedObstacle (r : Road) (rnd : SpawnRand) : Obstacle :=
  let x : ℚ := ((lane_center_x rnd.lane r.lane_width : ℤ) : ℚ)
  let obstacle_type : String :=
    if rnd.typeR < 33/100 then "truck"
    else if rnd.typeR < 67/100 then "barrier"
    else "car"
  Obstacle.init x (-100) 50 80 r.obstacle_speed obstacle_type rnd.animR

/-- `Road.spawn_obstacle()` (road.py lines 222-243): appends one obstacle. -/
def Road.spawn_obstacle (r : Road) (rnd : SpawnRand) : Road :=
  { r with obstacles := r.obstacles ++ [r.spawnedObstacle rnd] }

/-- `Road.update_particles(dt)` (road.py lines 194-211): maybe append one new
particle, then advance every particle and drop the expired or off-screen ones. -/
def Road.update_particles (r : Road) (dt : ℚ) (rnd : ParticleRand) : Road :=
  let parts0 : List Particle :=
    if rnd.p < 2/5 then
      r.road_particles ++ [{ x := rnd.x, y := -10, speed := rnd.speed,
                             life := rnd.life, max_life := 5 }]
    else r.road_particles
  let parts1 : List Particle :=
    (parts0.map (fun p => { p with y := p.y + p.speed * dt, life := p.life - dt })).filter
      (fun p => !(decide (p.life ≤ 0) || decide (p.y > r.height)))
  { r with road_particles := parts1 }

/-- `Road.update(dt, car_speed)` (road.py lines 167-192): scroll, score and
distance, spawn timer, obstacle advance and removal, particles. -/
def Road.update (r : Road) (dt car_speed : ℚ) (rnd : RoadRand) : Road :=
  let off0 : ℚ := r.road_y_offset + car_speed * dt * 100
  let r1 : Road := { r with road_y_offset := if off0 > r.line_spacing then 0 else off0 }
  let distance_increment : ℚ := car_speed * dt * 15
  let r2 : Road :=
    { r1 with
      distance_traveled := r1.distance_traveled + distance_increment
      score := r1.score + pyInt (distance_increment * r1.multiplier) }
  let timer : ℚ := r2.obstacle_spawn_timer + dt * 1000
  let r3 : Road :=
    if timer ≥ r2.obstacle_spawn_interval then
      { r2.spawn_obstacle rnd.spawn with obstacle_spawn_timer := 0 }
    else
      { r2 with obstacle_spawn_timer := timer }
  let r4 : Road :=
    { r3 with
      obstacles := (r3.obstacles.map (fun o => o.update dt car_speed)).filter
        (fun o => o.active) }
  r4.update_particles dt rnd.particles

/-- `Road.check_collisions(car_rect)` (road.py lines 306-312): true together
with 0 when some active obstacle box intersects the car box. -/
def Road.check_collisions (r : Road) (car_rect : Rect) : Bool × ℤ :=
  (r.obstacles.any (fun o => o.active && car_rect.colliderect o.get_rect), 0)

/-- `Road.get_score()` (road.py lines 314-316). -/
def Road.get_score (r : Road) : ℤ := r.score

/-- `Road.reset()` (road.py lines 326-334).  It does not touch
`road_y_offset`. -/
def Road.reset (r : Road) : Road :=
  { r with
    obstacles := []
    distance_traveled := 0
    obstacle_spawn_timer := 0
    score := 0
    multiplier := 1
    road_particles := []
    explosion_effects := [] }

/-- One prediction result returned by the model predictor
(`action, confidence, all_predictions`), treated as an external input. -/
structure Prediction where
  action : String
  confidence : ℚ
  all : List ℚ
deriving DecidableEq

/-- State of `ModelControlledCarGame` (main.py lines 9-53) restricted to the
simulation fields; screen, clock, fonts and the predictor object are
external collaborators with no simulation state. -/
structure Game where
  car : Car
  road : Road
  prediction_interval : ℚ
  time_since_last_prediction : ℚ
  pending_action : String
  game_state : String
  current_action : String
  current_confidence : ℚ
  all_predictions : List ℚ
  last_score : ℤ
  high_score : ℤ
  score_popup_timer : ℚ
deriving DecidableEq

/-- `ModelControlledCarGame.__init__` (main.py lines 10-44). -/
def Game.init (prediction_interval : ℚ) : Game :=
  { car := Car.init 300 650 45 70
    road := Road.init 600 800
    prediction_interval := prediction_interval
    time_since_last_prediction := 0
    pending_action := "CENTER"
    game_state := "PLAYING"
    current_action := "CENTER"
    current_confidence := 0
    all_predictions := [0, 1, 0]
    last_score := 0
    high_score := 0
    score_popup_timer := 0 }

/-- `ModelControlledCarGame.update(dt)` (main.py lines 81-112).  `pred` is the
(rate-limited) model prediction that would be produced this tick and `rnd`
the random draws the road update would consume; both are external inputs.
When `game_state` is not `PLAYING` the method does nothing. -/
def Game.update (g : Game) (dt : ℚ) (pred : Prediction) (rnd : RoadRand) : Game :=
  if g.game_state = "PLAYING" then
    let t : ℚ := g.time_since_last_prediction + dt
    let g1 : Game :=
      if t ≥ g.prediction_interval then
        { g with
          current_action := pred.action
          current_confidence := pred.confidence
          all_predictions := pred.all
          pending_action := pred.action
          time_since_last_prediction := 0 }
      else
        { g with time_since_last_prediction := t }
    let car1 : Car := (g1.car.update_controls g1.pending_action).update dt
    let road1 : Road := g1.road.update dt car1.velocity rnd
    let g2 : Game := { g1 with car := car1, road := road1 }
    if (road1.check_collisions car1.get_rect).1 then
      { g2 with
        game_state := "GAME_OVER"
        high_score := if road1.get_score > g2.high_score then road1.get_score
                      else g2.high_score }
    else g2
  else g

/-- `ModelControlledCarGame.restart_game()` (main.py lines 270-276). -/
def Game.restart_game (g : Game) : Game :=
  { g with
    car := g.car.reset_position 300 650
    road := g.road.reset
    game_state := "PLAYING"
    time_since_last_prediction := 0
    pending_action := "CENTER" }

/-- The external inputs of one driver-loop tick. -/
structure GameInput where
  dt : ℚ
  pred : Prediction
  rnd : RoadRand

/-- A sequence of driver-loop `update` calls. -/
def Game.run (g : Game) (inputs : List GameInput) : Game :=
  inputs.foldl (fun s i => s.update i.dt i.pred i.rnd) g

/-- One call made on the vehicle: either `update_controls(cmd)` or
`update(dt)`. -/
inductive CarOp where
  | ctrl (cmd : String)
  | phys (dt : ℚ)

/-- Apply one vehicle call. -/
def Car.step (c : Car) : CarOp → Car
  | .ctrl cmd => c.update_controls cmd
  | .phys dt => c.update dt

/-- A sequence of vehicle calls. -/
def Car.run (c : Car) (ops : List CarOp) : Car := ops.foldl Car.step c

/-- The externally observable part of the vehicle state: braking flag,
settled lane, target lane, velocity and horizontal position. -/
def Car.obs (c : Car) : Bool × ℤ × ℤ × ℚ × ℚ :=
  (c.braking, c.lane, c.target_lane, c.velocity, c.x)

/-- Width of the intersection of two rectangles (can be negative when they
are horizontally apart). -/
def Rect.overlap_w (a b : Rect) : ℤ := min (a.x + a.w) (b.x + b.w) - max a.x b.x

/-- Height of the intersection of two rectangles (can be negative when they
are vertically apart). -/
def Rect.overlap_h (a b : Rect) : ℤ := min (a.y + a.h) (b.y + b.h) - max a.y b.y

/-- Area of the intersection of two rectangles (0 when they do not overlap). -/
def Rect.overlap_area (a b : Rect) : ℤ :=
  max 0 (a.overlap_w b) * max 0 (a.overlap_h b)

/-- The claimed state invariant: both lane indices in `{0,1,2}` and the
velocity within `[0, max_velocity]`. -/
def Car.lane_inv (c : Car) : Prop :=
  (c.lane = 0 ∨ c.lane = 1 ∨ c.lane = 2)
  ∧ (c.target_lane = 0 ∨ c.target_lane = 1 ∨ c.target_lane = 2)
  ∧ 0 ≤ c.velocity ∧ c.velocity ≤ c.max_velocity

/-- The rate constants as set by `Car.__init__` and never written again. -/
def Car.rates_inv (c : Car) : Prop :=
  c.acceleration = 1/5 ∧ c.default_speed = 3 ∧ c.max_velocity = 6

/-- The obstacle list that `Road.update` advances: the incoming list, plus
the obstacle spawned this tick when the spawn timer fires (road.py lines
180-183 run before the advance loop of lines 185-189, so a fresh obstacle is
advanced in the same tick). -/
def Road.pre_obstacles (r : Road) (dt : ℚ) (rnd : SpawnRand) : List Obstacle :=
  if r.obstacle_spawn_timer + dt * 1000 ≥ r.obstacle_spawn_interval then
    r.obstacles ++ [r.spawnedObstacle rnd]
  else r.obstacles

/-- Overwrite only the two recorded command strings of a vehicle state. -/
def Car.with_cmds (b : Car) (p q : String) : Car :=
  { b with current_command := p, last_command := q }

/-! ## Helper lemmas -/

/-- `pyInt` agrees with the floor on nonnegative arguments. -/
theorem pyInt_eq_floor {q : ℚ} (h : 0 ≤ q) : pyInt q = ⌊q⌋ := by
  simp [pyInt, h]

/-- `update_controls` stores the received command into `last_command` on
every call. -/
theorem update_controls_last (d : Car) (a : String) :
    (d.update_controls a).last_command = a := by
  simp only [Car.update_controls]

/-- `update_controls` stores the received command into `current_command` on
every call. -/
theorem update_controls_current (d : Car) (a : String) :
    (d.update_controls a).current_command = a := by
  simp only [Car.update_controls]
  split_ifs <;> rfl

/-- `Car.update` never touches `last_command`. -/
theorem update_preserves_last (b : Car) (dt : ℚ) :
    (b.update dt).last_command = b.last_command := by
  simp only [Car.update]
  split_ifs <;> rfl

/-! ## C1: reset -/

/-- C1 as stated is false: `Car.reset_position` leaves the braking flag (and
the held command) at its prior value, and `Road.reset` leaves the scroll
offset at its prior value, so not every vehicle/road field returns to its
game-start value.  Concretely: after issuing `BRAKE` and then resetting, the
braking flag is still `true`, while the game-start value is `false`; a road
whose scroll offset is `5` keeps that offset across `reset`, while the
game-start value is `0`. -/
theorem reset_not_canonical :
    (((Car.init 300 650 45 70).update_controls "BRAKE").reset_position 300 650).braking = true
    ∧ (Car.init 300 650 45 70).braking = false
    ∧ ({ Road.init 600 800 with road_y_offset := 5 } : Road).reset.road_y_offset = 5
    ∧ (Road.init 600 800).road_y_offset = 0 :=
  ⟨rfl, rfl, rfl, rfl⟩

/-- C1 amended: for every prior state, `Car.reset_position(x, y)` restores
lane 1, target lane 1, velocity 0, the lane-1 center x, the given y and the
`"NONE"` last command, and `Road.reset()` restores score 0, distance 0,
multiplier 1, the empty obstacle set, spawn timer 0 and empty effect lists;
but the braking flag, the held command (`current_command`) and the scroll
offset (`road_y_offset`) are left at their prior values rather than reset. -/
theorem reset_restores_listed_fields (c : Car) (r : Road) (x y : ℚ) :
    (c.reset_position x y).lane = 1
    ∧ (c.reset_position x y).target_lane = 1
    ∧ (c.reset_position x y).velocity = 0
    ∧ (c.reset_position x y).x = ((lane_center_x 1 c.lane_width : ℤ) : ℚ)
    ∧ (c.reset_position x y).y = y
    ∧ (c.reset_position x y).last_command = "NONE"
    ∧ (c.reset_position x y).braking = c.braking
    ∧ (c.reset_position x y).current_command = c.current_command
    ∧ r.reset.score = 0
    ∧ r.reset.distance_traveled = 0
    ∧ r.reset.multiplier = 1
    ∧ r.reset.obstacles = []
    ∧ r.reset.obstacle_spawn_timer = 0
    ∧ r.reset.road_particles = []
    ∧ r.reset.explosion_effects = []
    ∧ r.reset.road_y_offset = r.road_y_offset :=
  ⟨rfl, rfl, rfl, rfl, rfl, rfl, rfl, rfl, rfl, rfl, rfl, rfl, rfl, rfl, rfl, rfl⟩

/-! ## C8: game-over freeze -/

/-- C8: once `game_state` is `GAME_OVER`, every subsequent driver-loop
`update(dt)` call leaves the whole game state (in particular the car
velocity, lane and x, and the road score, distance and obstacle list)
unchanged, whatever inputs arrive, until an explicit restart. -/
theorem game_over_freezes (g : Game) (inputs : List GameInput)
    (h : g.game_state = "GAME_OVER") :
    Game.run g inputs = g := by
  induction inputs with
  | nil => rfl
  | cons i rest ih =>
    have hstep : g.update i.dt i.pred i.rnd = g := by
      simp [Game.update, h]
    show Game.run (g.update i.dt i.pred i.rnd) rest = g
    rw [hstep]
    exact ih

/-- Witness for C8 at a concrete game-over state and a concrete tick. -/
theorem game_over_freezes_witness :
    ({ Game.init (1/2) with game_state := "GAME_OVER" } : Game).game_state = "GAME_OVER"
    ∧ Game.run { Game.init (1/2) with game_state := "GAME_OVER" }
        [⟨1/60, ⟨"CENTER", 1, [0, 1, 0]⟩, ⟨⟨1, 1/2, 0⟩, ⟨1, 0, 0, 0⟩⟩⟩]
        = { Game.init (1/2) with game_state := "GAME_OVER" } :=
  ⟨rfl, game_over_freezes _ _ rfl⟩

/-! ## C9: score and distance -/

/-- `Road.update` changes `distance_traveled` and `score` exactly as the
score/distance step dictates, independent of spawning and particles. -/
theorem road_update_score_distance (r : Road) (dt v : ℚ) (rnd : RoadRand) :
    (r.update dt v rnd).distance_traveled = r.distance_traveled + v * dt * 15
    ∧ (r.update dt v rnd).score = r.score + pyInt (v * dt * 15 * r.multiplier) := by
  simp only [Road.update, Road.update_particles, Road.spawn_obstacle]
  split_ifs <;> simp

/-- C9: during play, with `dt ≥ 0` and vehicle velocity `v ≥ 0` (and the
score multiplier nonnegative, as it always is: it is `1` at start and after
every reset and no code path changes it), `Road.update(dt, v)` increases
`distance_traveled` by exactly `v*dt*15`, increases `score` by exactly the
integer floor of that increment times the multiplier, and hence neither
`score` nor `distance_traveled` ever decreases. -/
theorem score_distance_monotone (r : Road) (dt v : ℚ) (rnd : RoadRand)
    (hdt : 0 ≤ dt) (hv : 0 ≤ v) (hm : 0 ≤ r.multiplier) :
    (r.update dt v rnd).distance_traveled = r.distance_traveled + v * dt * 15
    ∧ (r.update dt v rnd).score = r.score + ⌊v * dt * 15 * r.multiplier⌋
    ∧ r.distance_traveled ≤ (r.update dt v rnd).distance_traveled
    ∧ r.score ≤ (r.update dt v rnd).score := by
  obtain ⟨hd, hs⟩ := road_update_score_distance r dt v rnd
  have hinc : (0:ℚ) ≤ v * dt * 15 := by positivity
  have hincm : (0:ℚ) ≤ v * dt * 15 * r.multiplier := by positivity
  have hs' : (r.update dt v rnd).score = r.score + ⌊v * dt * 15 * r.multiplier⌋ := by
    rw [hs, pyInt_eq_floor hincm]
  refine ⟨hd, hs', ?_, ?_⟩
  · rw [hd]; linarith
  · rw [hs']
    have : (0:ℤ) ≤ ⌊v * dt * 15 * r.multiplier⌋ := Int.floor_nonneg.mpr hincm
    omega

/-- Witness for C9 at a concrete road and tick: `dt = 2`, `v = 3`, so the
distance increment is `90` and the score increment `⌊90⌋ = 90`. -/
theorem score_distance_monotone_witness :
    ((Road.init 600 800).update 2 3 ⟨⟨1, 1/2, 0⟩, ⟨1, 0, 0, 0⟩⟩).distance_traveled
        = (Road.init 600 800).distance_traveled + 3 * 2 * 15
    ∧ ((Road.init 600 800).update 2 3 ⟨⟨1, 1/2, 0⟩, ⟨1, 0, 0, 0⟩⟩).score
        = (Road.init 600 800).score + ⌊(3 * 2 * 15 * (Road.init 600 800).multiplier : ℚ)⌋ :=
  ⟨(score_distance_monotone (Road.init 600 800) 2 3 ⟨⟨1, 1/2, 0⟩, ⟨1, 0, 0, 0⟩⟩
      (by norm_num) (by norm_num) (by norm_num [Road.init])).1,
   (score_distance_monotone (Road.init 600 800) 2 3 ⟨⟨1, 1/2, 0⟩, ⟨1, 0, 0, 0⟩⟩
      (by norm_num) (by norm_num) (by norm_num [Road.init])).2.1⟩

/-! ## C5: spawn postcondition -/

/-- C5: every obstacle produced by `spawn_obstacle` has width 50, height 80,
`y = -100`, is active, sits at a lane center `lane*lane_width +
lane_width // 2` for some lane in `{0,1,2}` (the integer-division center,
which equals `lane_width/2` for the even width 200 used throughout), is a
truck when the type draw is below `0.33`, a barrier when below `0.67` and a
car otherwise, and the point values are truck 20, barrier 5, car 10. -/
theorem spawn_postcondition (r : Road) (rnd : SpawnRand)
    (hlo : 0 ≤ rnd.lane) (hhi : rnd.lane ≤ 2)
    (hr0 : 0 ≤ rnd.typeR) (hr1 : rnd.typeR < 1) :
    (r.spawn_obstacle rnd).obstacles = r.obstacles ++ [r.spawnedObstacle rnd]
    ∧ (r.spawnedObstacle rnd).width = 50
    ∧ (r.spawnedObstacle rnd).height = 80
    ∧ (r.spawnedObstacle rnd).y = -100
    ∧ (r.spawnedObstacle rnd).active = true
    ∧ (∃ lane : ℤ, (lane = 0 ∨ lane = 1 ∨ lane = 2)
        ∧ (r.spawnedObstacle rnd).x = ((lane_center_x lane r.lane_width : ℤ) : ℚ))
    ∧ (if rnd.typeR < 33/100 then (r.spawnedObstacle rnd).obstacle_type = "truck"
       else if rnd.typeR < 67/100 then (r.spawnedObstacle rnd).obstacle_type = "barrier"
       else (r.spawnedObstacle rnd).obstacle_type = "car")
    ∧ Obstacle.point_values "truck" = some 20
    ∧ Obstacle.point_values "barrier" = some 5
    ∧ Obstacle.point_values "car" = some 10 := by
  refine ⟨rfl, rfl, rfl, rfl, rfl, ⟨rnd.lane, by omega, rfl⟩, ?_, rfl, rfl, rfl⟩
  simp only [Road.spawnedObstacle, Obstacle.init]
  split_ifs <;> rfl

/-- Witness for C5 at a concrete road and draw (`lane = 2`, type draw `0.5`,
which yields a barrier). -/
theorem spawn_postcondition_witness :
    ((Road.init 600 800).spawnedObstacle ⟨2, 1/2, 0⟩).width = 50
    ∧ ((Road.init 600 800).spawnedObstacle ⟨2, 1/2, 0⟩).y = -100
    ∧ ((Road.init 600 800).spawnedObstacle ⟨2, 1/2, 0⟩).active = true
    ∧ (∃ lane : ℤ, (lane = 0 ∨ lane = 1 ∨ lane = 2)
        ∧ ((Road.init 600 800).spawnedObstacle ⟨2, 1/2, 0⟩).x
            = ((lane_center_x lane (Road.init 600 800).lane_width : ℤ) : ℚ)) := by
  have h := spawn_postcondition (Road.init 600 800) ⟨2, 1/2, 0⟩
    (by norm_num) (by norm_num) (by norm_num) (by norm_num)
  exact ⟨h.2.1, h.2.2.2.1, h.2.2.2.2.1, h.2.2.2.2.2.1⟩

/-! ## C2: lane-change debounce -/

/-- When the received command equals the stored `last_command`, the target
lane never changes. -/
theorem update_controls_same_command (d : Car) (a : String)
    (h : d.last_command = a) :
    (d.update_controls a).target_lane = d.target_lane := by
  simp only [Car.update_controls]
  split_ifs with h1 h2 h3 h4 <;> simp_all

/-- C2: for a swipe command and a target lane in `{0,1,2}`, `update_controls`
changes `target_lane` only on a rising edge (command different from
`last_command`), decrementing clamped at 0 for `SWIPE_LEFT` and incrementing
clamped at 2 for `SWIPE_RIGHT`; two consecutive calls with the same command
change `target_lane` at most once; `last_command` is set to the received
command on every call; and, from target lane 1, `SWIPE_LEFT` twice yields 0
after the first call and still 0 after the second. -/
theorem lane_change_debounce (c : Car) (cmd : String)
    (hcmd : cmd = "SWIPE_LEFT" ∨ cmd = "SWIPE_RIGHT")
    (hlo : 0 ≤ c.target_lane) (hhi : c.target_lane ≤ 2) :
    ((c.update_controls cmd).target_lane =
      if cmd = c.last_command then c.target_lane
      else if cmd = "SWIPE_LEFT" then max 0 (c.target_lane - 1)
      else min 2 (c.target_lane + 1))
    ∧ ((c.update_controls cmd).update_controls cmd).target_lane
        = (c.update_controls cmd).target_lane
    ∧ (∀ (d : Car) (a : String), (d.update_controls a).last_command = a)
    ∧ ((Car.init 300 650 45 70).update_controls "SWIPE_LEFT").target_lane = 0
    ∧ (((Car.init 300 650 45 70).update_controls "SWIPE_LEFT").update_controls
        "SWIPE_LEFT").target_lane = 0 := by
  refine ⟨?_, ?_, update_controls_last, by decide, by decide⟩
  · rcases hcmd with h | h <;> subst h <;>
      · simp only [Car.update_controls]
        split_ifs <;> simp_all <;> omega
  · exact update_controls_same_command _ _ (update_controls_last c cmd)

/-- Witness for C2: a concrete state in lane 1 with held command `"NONE"`
receiving `SWIPE_RIGHT`. -/
theorem lane_change_debounce_witness :
    ((Car.init 300 650 45 70).update_controls "SWIPE_RIGHT").target_lane
      = (if "SWIPE_RIGHT" = (Car.init 300 650 45 70).last_command
         then (Car.init 300 650 45 70).target_lane
         else if "SWIPE_RIGHT" = "SWIPE_LEFT"
         then max 0 ((Car.init 300 650 45 70).target_lane - 1)
         else min 2 ((Car.init 300 650 45 70).target_lane + 1))
    ∧ (((Car.init 300 650 45 70).update_controls "SWIPE_RIGHT").update_controls
        "SWIPE_RIGHT").target_lane
        = ((Car.init 300 650 45 70).update_controls "SWIPE_RIGHT").target_lane :=
  ⟨(lane_change_debounce (Car.init 300 650 45 70) "SWIPE_RIGHT" (Or.inr rfl)
      (by decide) (by decide)).1,
   (lane_change_debounce (Car.init 300 650 45 70) "SWIPE_RIGHT" (Or.inr rfl)
      (by decide) (by decide)).2.1⟩

/-! ## C4: braking stop time -/

/-- One braking tick: the velocity drops by `4 * acceleration`, floored at 0,
while the braking flag and the acceleration rate are untouched. -/
theorem brake_step (s : Car) (dt : ℚ) (hb : s.braking = true) :
    (s.update dt).velocity = max 0 (s.velocity - s.acceleration * 4)
    ∧ (s.update dt).braking = true
    ∧ (s.update dt).acceleration = s.acceleration := by
  simp only [Car.update, hb]
  split_ifs <;> simp_all

/-- C4: from velocity 3 with braking asserted and acceleration 0.2 (so a
deceleration step of 0.8 per tick), repeated `Car.update(dt)` calls reach
velocity exactly 0 at tick 4 and keep it at exactly 0 on every further tick
while braking stays asserted. -/
theorem braking_stop (c : Car) (dt : ℚ)
    (hb : c.braking = true) (hv : c.velocity = 3) (ha : c.acceleration = 1/5) :
    ((fun s => Car.update s dt)^[4] c).velocity = 0
    ∧ ∀ n : ℕ, ((fun s => Car.update s dt)^[4 + n] c).velocity = 0 := by
  set f : Car → Car := fun s => Car.update s dt with hf
  have step : ∀ s : Car, s.braking = true → s.acceleration = 1/5 →
      ((f s).velocity = max 0 (s.velocity - 4/5) ∧ (f s).braking = true
        ∧ (f s).acceleration = 1/5) := by
    intro s hsb hsa
    obtain ⟨h1, h2, h3⟩ := brake_step s dt hsb
    rw [hsa] at h1
    rw [hsa] at h3
    exact ⟨by rw [hf]; rw [h1]; norm_num, by rw [hf]; exact h2, by rw [hf]; exact h3⟩
  obtain ⟨e1, b1, a1⟩ := step c hb ha
  have v1 : (f c).velocity = 11/5 := by
    rw [e1, hv, max_def]
    norm_num
  obtain ⟨e2, b2, a2⟩ := step (f c) b1 a1
  have v2 : (f (f c)).velocity = 7/5 := by
    rw [e2, v1, max_def]
    norm_num
  obtain ⟨e3, b3, a3⟩ := step (f (f c)) b2 a2
  have v3 : (f (f (f c))).velocity = 3/5 := by
    rw [e3, v2, max_def]
    norm_num
  obtain ⟨e4, b4, a4⟩ := step (f (f (f c))) b3 a3
  have v4 : (f (f (f (f c)))).velocity = 0 := by
    rw [e4, v3, max_def]
    norm_num
  have hiter4 : f^[4] c = f (f (f (f c))) := by
    simp [Function.iterate_succ_apply, Function.iterate_zero_apply]
  have main : ∀ n : ℕ, (f^[n] (f^[4] c)).velocity = 0 ∧ (f^[n] (f^[4] c)).braking = true
      ∧ (f^[n] (f^[4] c)).acceleration = 1/5 := by
    intro n
    induction n with
    | zero => rw [hiter4]; exact ⟨v4, b4, a4⟩
    | succ k ih =>
      obtain ⟨iv, ib, ia⟩ := ih
      obtain ⟨s1, s2, s3⟩ := step _ ib ia
      rw [Function.iterate_succ_apply']
      refine ⟨?_, s2, s3⟩
      rw [s1, iv, max_def]
      norm_num
  refine ⟨(main 0).1, ?_⟩
  intro n
  rw [Nat.add_comm, Function.iterate_add_apply]
  exact (main n).1

/-- Witness for C4 at the concrete start state of the game with braking
asserted and `dt = 1/60`. -/
theorem braking_stop_witness :
    ((fun s => Car.update s (1/60))^[4]
        { Car.init 300 650 45 70 with velocity := 3, braking := true }).velocity = 0
    ∧ ((fun s => Car.update s (1/60))^[4 + 2]
        { Car.init 300 650 45 70 with velocity := 3, braking := true }).velocity = 0 :=
  ⟨(braking_stop _ _ rfl rfl rfl).1, (braking_stop _ _ rfl rfl rfl).2 2⟩

/-! ## C10: strict collision boundary -/

/-- `pyInt` of an integer cast is that integer. -/
theorem pyInt_intCast (n : ℤ) : pyInt ((n : ℤ) : ℚ) = n := by
  unfold pyInt
  split_ifs <;> simp

/-- `pyInt` of anything equal to an integer cast is that integer. -/
theorem pyInt_eq_of_cast {q : ℚ} {n : ℤ} (h : q = ((n : ℤ) : ℚ)) : pyInt q = n := by
  rw [h, pyInt_intCast]

/-- `pyInt` of a difference of integer casts subtracts the integers. -/
theorem pyInt_cast_sub_cast (a b : ℤ) :
    pyInt (((a : ℤ) : ℚ) - ((b : ℤ) : ℚ)) = a - b := by
  refine pyInt_eq_of_cast ?_
  push_cast
  ring

/-- For rectangles of positive extent, `colliderect` is exactly
positive-area overlap. -/
theorem colliderect_iff_area (a b : Rect)
    (haw : 0 < a.w) (hah : 0 < a.h) (hbw : 0 < b.w) (hbh : 0 < b.h) :
    (a.colliderect b = true ↔ 0 < a.overlap_area b) := by
  have hw : (0 < a.overlap_w b) ↔
      ((a.x < a.x + a.w ∧ a.x < b.x + b.w) ∧ (b.x < a.x + a.w ∧ b.x < b.x + b.w)) := by
    rw [Rect.overlap_w, sub_pos, max_lt_iff, lt_min_iff, lt_min_iff]
  have hh : (0 < a.overlap_h b) ↔
      ((a.y < a.y + a.h ∧ a.y < b.y + b.h) ∧ (b.y < a.y + a.h ∧ b.y < b.y + b.h)) := by
    rw [Rect.overlap_h, sub_pos, max_lt_iff, lt_min_iff, lt_min_iff]
  have harea : (0 < a.overlap_area b) ↔
      (0 < a.overlap_w b ∧ 0 < a.overlap_h b) := by
    rw [Rect.overlap_area, mul_pos_iff]
    constructor
    · rintro (⟨h1, h2⟩ | ⟨h1, _⟩)
      · exact ⟨(lt_max_iff.mp h1).resolve_left (lt_irrefl 0),
          (lt_max_iff.mp h2).resolve_left (lt_irrefl 0)⟩
      · exact absurd h1 (not_lt.mpr (le_max_left 0 _))
    · rintro ⟨h1, h2⟩
      exact Or.inl ⟨lt_max_iff.mpr (Or.inr h1), lt_max_iff.mpr (Or.inr h2)⟩
  rw [harea, hw, hh, Rect.colliderect]
  simp only [Bool.and_eq_true, Bool.not_eq_true', Bool.or_eq_false_iff,
    decide_eq_false_iff_not, decide_eq_true_eq]
  omega

/-- The concrete vehicle box of the game start: centered (300, 650), 45×70. -/
theorem car_rect_concrete : (Car.init 300 650 45 70).get_rect = ⟨278, 615, 45, 70⟩ := by
  have e200 : Int.fdiv 200 2 = 100 := by decide
  have e45 : Int.fdiv 45 2 = 22 := by decide
  have e70 : Int.fdiv 70 2 = 35 := by decide
  show Rect.mk (pyInt (((lane_center_x 1 200 : ℤ) : ℚ) - ((Int.fdiv 45 2 : ℤ) : ℚ)))
      (pyInt ((650 : ℚ) - ((Int.fdiv 70 2 : ℤ) : ℚ))) 45 70 = ⟨278, 615, 45, 70⟩
  have hx : pyInt (((lane_center_x 1 200 : ℤ) : ℚ) - ((Int.fdiv 45 2 : ℤ) : ℚ))
      = lane_center_x 1 200 - Int.fdiv 45 2 := pyInt_cast_sub_cast _ _
  have hy : pyInt ((650 : ℚ) - ((Int.fdiv 70 2 : ℤ) : ℚ)) = 615 := by
    rw [e70]
    exact pyInt_eq_of_cast (by push_cast; norm_num)
  rw [hx, hy]
  have : lane_center_x 1 200 - Int.fdiv 45 2 = 278 := by decide
  rw [this]

/-- A concrete obstacle box centered at (300, y) sized 50×80. -/
theorem obstacle_rect_concrete (y : ℚ) (n : ℤ) (h : y = ((n : ℤ) : ℚ)) (t : String) :
    (Obstacle.init 300 y 50 80 0 t 0).get_rect = ⟨275, n - 40, 50, 80⟩ := by
  have e50 : Int.fdiv 50 2 = 25 := by decide
  have e80 : Int.fdiv 80 2 = 40 := by decide
  show Rect.mk (pyInt ((300 : ℚ) - ((Int.fdiv 50 2 : ℤ) : ℚ)))
      (pyInt (y - ((Int.fdiv 80 2 : ℤ) : ℚ))) 50 80 = ⟨275, n - 40, 50, 80⟩
  have hx : pyInt ((300 : ℚ) - ((Int.fdiv 50 2 : ℤ) : ℚ)) = 275 := by
    rw [e50]
    exact pyInt_eq_of_cast (by push_cast; norm_num)
  have hy : pyInt (y - ((Int.fdiv 80 2 : ℤ) : ℚ)) = n - 40 := by
    rw [e80, h]
    exact pyInt_cast_sub_cast _ _
  rw [hx, hy]

/-- C10: `check_collisions` reports a collision exactly when some listed
active obstacle box overlaps the vehicle box with positive area (stated for
boxes of positive extent, which every car and obstacle box has); boxes that
merely touch along an edge are not colliding — concretely, the vehicle box
⟨278, 615, 45, 70⟩, whose bottom edge is 685, against an obstacle box
⟨275, 685, 50, 80⟩, whose top edge is 685, gives no collision and overlap
area 0 — and inactive obstacles never produce a collision. -/
theorem collision_strict_boundary (r : Road) (cr : Rect)
    (hw : 0 < cr.w) (hh : 0 < cr.h)
    (hobs : ∀ o ∈ r.obstacles, 0 < o.width ∧ 0 < o.height) :
    ((r.check_collisions cr).1 = true ↔
      ∃ o ∈ r.obstacles, o.active = true ∧ 0 < cr.overlap_area o.get_rect)
    ∧ Rect.colliderect (Car.init 300 650 45 70).get_rect
        (Obstacle.init 300 725 50 80 0 "car" 0).get_rect = false
    ∧ (Car.init 300 650 45 70).get_rect.overlap_area
        (Obstacle.init 300 725 50 80 0 "car" 0).get_rect = 0
    ∧ ((∀ o ∈ r.obstacles, o.active = false) → (r.check_collisions cr).1 = false) := by
  have hob2 : (Obstacle.init 300 725 50 80 0 "car" 0).get_rect = ⟨275, 685, 50, 80⟩ := by
    rw [obstacle_rect_concrete 725 725 (by norm_num) "car"]
    decide
  have main : (r.check_collisions cr).1 = true ↔
      ∃ o ∈ r.obstacles, o.active = true ∧ 0 < cr.overlap_area o.get_rect := by
    rw [Road.check_collisions]
    simp only [List.any_eq_true, Bool.and_eq_true]
    constructor
    · rintro ⟨o, ho, hact, hcol⟩
      obtain ⟨how, hoh⟩ := hobs o ho
      exact ⟨o, ho, hact,
        (colliderect_iff_area cr o.get_rect hw hh how hoh).mp hcol⟩
    · rintro ⟨o, ho, hact, harea⟩
      obtain ⟨how, hoh⟩ := hobs o ho
      exact ⟨o, ho, hact,
        (colliderect_iff_area cr o.get_rect hw hh how hoh).mpr harea⟩
  refine ⟨main, ?_, ?_, ?_⟩
  · rw [car_rect_concrete, hob2]
    decide
  · rw [car_rect_concrete, hob2]
    decide
  · intro hall
    by_contra hc
    rw [Bool.not_eq_false] at hc
    obtain ⟨o, ho, hact, _⟩ := main.mp hc
    rw [hall o ho] at hact
    exact Bool.false_ne_true hact

/-- Witness for C10: the spec example, the vehicle box centered at (300, 650)
sized 45×70 against an overlapping active obstacle box centered at (300, 650)
sized 50×80, reports a collision. -/
theorem collision_strict_boundary_witness :
    (({ Road.init 600 800 with
        obstacles := [Obstacle.init 300 650 50 80 0 "car" 0] } : Road).check_collisions
          (Car.init 300 650 45 70).get_rect).1 = true := by
  have h := collision_strict_boundary
    { Road.init 600 800 with obstacles := [Obstacle.init 300 650 50 80 0 "car" 0] }
    (Car.init 300 650 45 70).get_rect (by decide) (by decide)
    (by
      intro o ho
      simp only [List.mem_singleton] at ho
      rw [ho]
      exact ⟨by decide, by decide⟩)
  refine h.1.mpr ⟨Obstacle.init 300 650 50 80 0 "car" 0, List.mem_singleton.mpr rfl,
    rfl, ?_⟩
  rw [car_rect_concrete, obstacle_rect_concrete 650 650 (by norm_num) "car"]
  decide

/-! ## C3: state invariant -/

/-- `update_controls` leaves `target_lane` unchanged or moves it one step
with clamping. -/
theorem update_controls_target_cases (c : Car) (a : String) :
    (c.update_controls a).target_lane = c.target_lane
    ∨ (c.update_controls a).target_lane = max 0 (c.target_lane - 1)
    ∨ (c.update_controls a).target_lane = min 2 (c.target_lane + 1) := by
  simp only [Car.update_controls]
  split_ifs <;> simp

/-- `update_controls` only writes the command fields, the braking flag and
`target_lane`. -/
theorem update_controls_unchanged (c : Car) (a : String) :
    (c.update_controls a).lane = c.lane
    ∧ (c.update_controls a).velocity = c.velocity
    ∧ (c.update_controls a).max_velocity = c.max_velocity
    ∧ (c.update_controls a).acceleration = c.acceleration
    ∧ (c.update_controls a).default_speed = c.default_speed := by
  simp only [Car.update_controls]
  split_ifs <;> exact ⟨rfl, rfl, rfl, rfl, rfl⟩

/-- Field behaviour of one physics tick: the lane either stays or snaps to
the target lane, the target lane and rate constants are unchanged, and the
velocity follows the braking/cruise formula. -/
theorem update_fields (c : Car) (dt : ℚ) :
    ((c.update dt).lane = c.lane ∨ (c.update dt).lane = c.target_lane)
    ∧ (c.update dt).target_lane = c.target_lane
    ∧ (c.update dt).max_velocity = c.max_velocity
    ∧ (c.update dt).acceleration = c.acceleration
    ∧ (c.update dt).default_speed = c.default_speed
    ∧ (c.update dt).velocity
        = (if c.braking then max 0 (c.velocity - c.acceleration * 4)
           else if c.velocity < c.default_speed then
             min c.default_speed (c.velocity + c.acceleration)
           else c.default_speed) := by
  simp only [Car.update]
  split_ifs <;> simp

/-- The invariant is preserved by `update_controls`. -/
theorem inv_preserved_ctrl (c : Car) (a : String)
    (h : c.lane_inv ∧ c.rates_inv) :
    (c.update_controls a).lane_inv ∧ (c.update_controls a).rates_inv := by
  obtain ⟨⟨hl, ht, hv0, hv1⟩, ha, hd, hm⟩ := h
  obtain ⟨ul, uv, um, ua, ud⟩ := update_controls_unchanged c a
  refine ⟨⟨?_, ?_, ?_, ?_⟩, ?_, ?_, ?_⟩
  · rw [ul]; exact hl
  · rcases update_controls_target_cases c a with h | h | h <;> rw [h] <;> omega
  · rw [uv]; exact hv0
  · rw [uv, um]; exact hv1
  · rw [ua]; exact ha
  · rw [ud]; exact hd
  · rw [um]; exact hm

/-- The invariant is preserved by one physics tick. -/
theorem inv_preserved_phys (c : Car) (dt : ℚ)
    (h : c.lane_inv ∧ c.rates_inv) :
    (c.update dt).lane_inv ∧ (c.update dt).rates_inv := by
  obtain ⟨⟨hl, ht, hv0, hv1⟩, ha, hd, hm⟩ := h
  obtain ⟨ul, ut, um, ua, ud, uv⟩ := update_fields c dt
  rw [ha, hd] at uv
  rw [hm] at hv1
  refine ⟨⟨?_, ?_, ?_, ?_⟩, ?_, ?_, ?_⟩
  · rcases ul with h | h <;> rw [h] <;> omega
  · rw [ut]; exact ht
  · rw [uv]
    split_ifs with h1 h2
    · exact le_max_left 0 _
    · exact le_min (by norm_num) (by linarith)
    · norm_num
  · rw [uv, um, hm]
    split_ifs with h1 h2
    · exact max_le (by norm_num) (by linarith)
    · exact le_trans (min_le_left _ _) (by norm_num)
    · norm_num
  · rw [ua]; exact ha
  · rw [ud]; exact hd
  · rw [um]; exact hm

/-- The invariant holds after any sequence of calls from an invariant
state. -/
theorem inv_preserved_run (ops : List CarOp) :
    ∀ c : Car, c.lane_inv ∧ c.rates_inv →
      (Car.run c ops).lane_inv ∧ (Car.run c ops).rates_inv := by
  induction ops with
  | nil => intro c h; exact h
  | cons op rest ih =>
    intro c h
    cases op with
    | ctrl a => exact ih _ (inv_preserved_ctrl c a h)
    | phys dt => exact ih _ (inv_preserved_phys c dt h)

/-- C3: after every sequence of `update_controls` and `update(dt)` calls
from the initial vehicle state, both lane indices remain in `{0,1,2}` and
the velocity remains in `[0, max_velocity]` (proved for all `dt`, in
particular all `dt ≥ 0`). -/
theorem state_invariant (ops : List CarOp) :
    (Car.run (Car.init 300 650 45 70) ops).lane_inv :=
  (inv_preserved_run ops (Car.init 300 650 45 70)
    ⟨⟨Or.inr (Or.inl rfl), Or.inr (Or.inl rfl), le_refl 0, by norm_num [Car.init]⟩,
     rfl, rfl, rfl⟩).1

/-! ## C6: obstacle advance and expiry -/

/-- `Obstacle.update` adds exactly `v*dt*150` to the y coordinate. -/
theorem obstacle_update_y (o : Obstacle) (dt v : ℚ) :
    (o.update dt v).y = o.y + v * dt * 150 := by
  simp only [Obstacle.update]
  split_ifs <;> rfl

/-- For an active obstacle, the advanced obstacle is active exactly when its
new y coordinate is at most 800. -/
theorem obstacle_update_active (o : Obstacle) (dt v : ℚ) (h : o.active = true) :
    (o.update dt v).active = decide ((o.update dt v).y ≤ 800) := by
  simp only [Obstacle.update]
  split_ifs with h1
  · exact (decide_eq_false (not_le.mpr h1)).symm
  · rw [h]
    exact (decide_eq_true (le_of_not_lt h1)).symm

/-- Every obstacle in the list `Road.update` advances is active, given the
incoming ones are. -/
theorem pre_obstacles_active (r : Road) (dt : ℚ) (rnd : SpawnRand)
    (hact : ∀ o ∈ r.obstacles, o.active = true) :
    ∀ o ∈ r.pre_obstacles dt rnd, o.active = true := by
  intro o ho
  rw [Road.pre_obstacles] at ho
  split_ifs at ho with h
  · rcases List.mem_append.mp ho with h1 | h1
    · exact hact o h1
    · rw [List.mem_singleton.mp h1]
      rfl
  · exact hact o ho

/-- `Road.update` maps the advance over `pre_obstacles` and keeps the active
survivors. -/
theorem road_update_obstacles (r : Road) (dt v : ℚ) (rnd : RoadRand) :
    (r.update dt v rnd).obstacles
      = ((r.pre_obstacles dt rnd.spawn).map (fun o => o.update dt v)).filter
          (fun o => o.active) := by
  simp only [Road.update, Road.update_particles, Road.spawn_obstacle,
    Road.spawnedObstacle, Road.pre_obstacles]
  by_cases hcond : r.obstacle_spawn_timer + dt * 1000 ≥ r.obstacle_spawn_interval
  · simp [hcond]
  · simp [hcond]

/-- Every obstacle held by a road after `Road.update` is active, so the
all-active hypothesis below holds at every reachable state (the list starts
empty, `reset` empties it, and `spawn_obstacle` appends an active one). -/
theorem road_update_all_active (r : Road) (dt v : ℚ) (rnd : RoadRand) :
    ∀ o ∈ (r.update dt v rnd).obstacles, o.active = true := by
  intro o ho
  rw [road_update_obstacles] at ho
  exact (List.mem_filter.mp ho).2

/-- C6: on every `Road.update(dt, v)` call (over a state whose obstacles are
all active, as every reachable state is), each advanced obstacle's y grows by
exactly `v*dt*150`, and the resulting obstacle list keeps exactly the
advanced obstacles whose new y is at most 800 — an obstacle is deactivated
and removed exactly when its new y exceeds 800 — and every remaining
obstacle is still active. -/
theorem obstacle_advance_expiry (r : Road) (dt v : ℚ) (rnd : RoadRand)
    (hact : ∀ o ∈ r.obstacles, o.active = true) :
    (∀ o ∈ r.pre_obstacles dt rnd.spawn, (o.update dt v).y = o.y + v * dt * 150)
    ∧ (r.update dt v rnd).obstacles
        = ((r.pre_obstacles dt rnd.spawn).map (fun o => o.update dt v)).filter
            (fun o => decide (o.y ≤ 800))
    ∧ ∀ o ∈ (r.update dt v rnd).obstacles, o.active = true ∧ o.y ≤ 800 := by
  have hpre := pre_obstacles_active r dt rnd.spawn hact
  have hfc : ((r.pre_obstacles dt rnd.spawn).map (fun o => o.update dt v)).filter
        (fun o => o.active)
      = ((r.pre_obstacles dt rnd.spawn).map (fun o => o.update dt v)).filter
          (fun o => decide (o.y ≤ 800)) := by
    refine List.filter_congr ?_
    intro o' ho'
    obtain ⟨u, hu, rfl⟩ := List.mem_map.mp ho'
    exact obstacle_update_active u dt v (hpre u hu)
  have hkey : (r.update dt v rnd).obstacles
      = ((r.pre_obstacles dt rnd.spawn).map (fun o => o.update dt v)).filter
          (fun o => decide (o.y ≤ 800)) := by
    rw [road_update_obstacles r dt v rnd, hfc]
  refine ⟨fun o _ => obstacle_update_y o dt v, hkey, ?_⟩
  intro o ho
  rw [hkey] at ho
  obtain ⟨hmem, hdec⟩ := List.mem_filter.mp ho
  obtain ⟨u, hu, rfl⟩ := List.mem_map.mp hmem
  have hy : (u.update dt v).y ≤ 800 := of_decide_eq_true hdec
  refine ⟨?_, hy⟩
  rw [obstacle_update_active u dt v (hpre u hu)]
  exact decide_eq_true hy

/-- Witness for C6 at a concrete road holding one active obstacle at y = 0,
with `dt = 1/60` and `v = 3`: the obstacle advances to `y = 15/2` and
survives. -/
theorem obstacle_advance_expiry_witness :
    (({ Road.init 600 800 with
        obstacles := [Obstacle.init 100 0 50 80 0 "car" 0] } : Road).update (1/60) 3
          ⟨⟨1, 1/2, 0⟩, ⟨1, 0, 0, 0⟩⟩).obstacles
      = ((({ Road.init 600 800 with
            obstacles := [Obstacle.init 100 0 50 80 0 "car" 0] } : Road).pre_obstacles
              (1/60) ⟨1, 1/2, 0⟩).map (fun o => o.update (1/60) 3)).filter
          (fun o => decide (o.y ≤ 800)) :=
  (obstacle_advance_expiry
    { Road.init 600 800 with obstacles := [Obstacle.init 100 0 50 80 0 "car" 0] }
    (1/60) 3 ⟨⟨1, 1/2, 0⟩, ⟨1, 0, 0, 0⟩⟩
    (by
      intro o ho
      simp only [List.mem_singleton] at ho
      rw [ho]
      rfl)).2.1

/-! ## C7: unknown commands behave as CENTER -/

/-- One physics tick commutes with overwriting the two command fields:
`Car.update` neither reads nor writes them. -/
theorem update_commutes_cmd_fields (b : Car) (p q : String) (dt : ℚ) :
    Car.update (b.with_cmds p q) dt = (Car.update b dt).with_cmds p q := by
  simp only [Car.update, Car.with_cmds]
  split_ifs <;> rfl

/-- As long as both held `last_command` values are non-swipe strings, the two
command fields are invisible to `update_controls`: overwriting them does not
change the result of the next call. -/
theorem update_controls_commutes_cmd_fields (b : Car) (p q cmd : String)
    (hq1 : q ≠ "SWIPE_LEFT") (hq2 : q ≠ "SWIPE_RIGHT")
    (hb1 : b.last_command ≠ "SWIPE_LEFT") (hb2 : b.last_command ≠ "SWIPE_RIGHT") :
    Car.update_controls (b.with_cmds p q) cmd = Car.update_controls b cmd := by
  simp only [Car.update_controls, Car.with_cmds]
  split_ifs <;> first | rfl | simp_all

/-- Observations agree along every subsequent call sequence once the states
agree outside the two command fields, provided both held commands are
non-swipe strings. -/
theorem run_obs_commutes_cmd_fields (ops : List CarOp) :
    ∀ (b : Car) (p q : String), q ≠ "SWIPE_LEFT" → q ≠ "SWIPE_RIGHT" →
      b.last_command ≠ "SWIPE_LEFT" → b.last_command ≠ "SWIPE_RIGHT" →
      (Car.run (b.with_cmds p q) ops).obs = (Car.run b ops).obs := by
  induction ops with
  | nil => intro b p q _ _ _ _; rfl
  | cons op rest ih =>
    intro b p q hq1 hq2 hb1 hb2
    cases op with
    | ctrl cmd =>
      show (Car.run (Car.update_controls (b.with_cmds p q) cmd) rest).obs
        = (Car.run (Car.update_controls b cmd) rest).obs
      rw [update_controls_commutes_cmd_fields b p q cmd hq1 hq2 hb1 hb2]
    | phys dt =>
      show (Car.run (Car.update (b.with_cmds p q) dt) rest).obs
        = (Car.run (Car.update b dt) rest).obs
      rw [update_commutes_cmd_fields b p q dt]
      refine ih (b.update dt) p q hq1 hq2 ?_ ?_ <;>
        rw [update_preserves_last] <;> assumption

/-- An unknown command leaves the state equal to the CENTER result except in
the two recorded command strings. -/
theorem unknown_command_state (c : Car) (cmd : String)
    (h1 : cmd ≠ "BRAKE") (h2 : cmd ≠ "SWIPE_LEFT") (h3 : cmd ≠ "SWIPE_RIGHT") :
    c.update_controls cmd = (c.update_controls "CENTER").with_cmds cmd cmd := by
  simp only [Car.update_controls, Car.with_cmds]
  split_ifs <;> simp_all

/-- C7: `update_controls` is total, so every command string outside
{BRAKE, SWIPE_LEFT, SWIPE_RIGHT, CENTER} — including "NO_ACTION" — is
processed without error, yields the same braking flag, target lane and lane
as `update_controls("CENTER")` would, and the two resulting states are
observationally equivalent under every subsequent command/update sequence. -/
theorem unknown_command_as_center (c : Car) (cmd : String)
    (h1 : cmd ≠ "BRAKE") (h2 : cmd ≠ "SWIPE_LEFT") (h3 : cmd ≠ "SWIPE_RIGHT")
    (h4 : cmd ≠ "CENTER") :
    (c.update_controls cmd).braking = (c.update_controls "CENTER").braking
    ∧ (c.update_controls cmd).target_lane = (c.update_controls "CENTER").target_lane
    ∧ (c.update_controls cmd).lane = (c.update_controls "CENTER").lane
    ∧ ∀ ops : List CarOp,
        (Car.run (c.update_controls cmd) ops).obs
          = (Car.run (c.update_controls "CENTER") ops).obs := by
  have hstate := unknown_command_state c cmd h1 h2 h3
  refine ⟨by rw [hstate]; rfl, by rw [hstate]; rfl, by rw [hstate]; rfl, ?_⟩
  intro ops
  rw [hstate]
  refine run_obs_commutes_cmd_fields ops (c.update_controls "CENTER") cmd cmd h2 h3 ?_ ?_ <;>
    rw [update_controls_last] <;> decide

/-- Witness for C7: the "NO_ACTION" command at the start state, followed by a
swipe and a physics tick, is indistinguishable from CENTER. -/
theorem unknown_command_as_center_witness :
    ((Car.init 300 650 45 70).update_controls "NO_ACTION").braking
        = ((Car.init 300 650 45 70).update_controls "CENTER").braking
    ∧ ((Car.init 300 650 45 70).update_controls "NO_ACTION").target_lane
        = ((Car.init 300 650 45 70).update_controls "CENTER").target_lane
    ∧ (Car.run ((Car.init 300 650 45 70).update_controls "NO_ACTION")
          [CarOp.ctrl "SWIPE_LEFT", CarOp.phys 1]).obs
        = (Car.run ((Car.init 300 650 45 70).update_controls "CENTER")
          [CarOp.ctrl "SWIPE_LEFT", CarOp.phys 1]).obs :=
  ⟨(unknown_command_as_center (Car.init 300 650 45 70) "NO_ACTION"
      (by decide) (by decide) (by decide) (by decide)).1,
   (unknown_command_as_center (Car.init 300 650 45 70) "NO_ACTION"
      (by decide) (by decide) (by decide) (by decide)).2.1,
   (unknown_command_as_center (Car.init 300 650 45 70) "NO_ACTION"
      (by decide) (by decide) (by decide) (by decide)).2.2.2
      [CarOp.ctrl "SWIPE_LEFT", CarOp.phys 1]⟩

end CarGame
